import Mathlib

/-!
Shallow embedding of `src/weETH-USDC.py` (GammaLPvsSpot): a sampling driver
that walks a weekly time axis, resolves each timestamp to a block, fetches
pool state, normalizes fixed-point fields, captures a baseline on the first
success, computes two return metrics, and emits rows.

Numeric values are modelled as real numbers (Python floats are modelled
exactly); the loop is modelled as a well-founded recursion on the cursor.
External services (the block subgraph and the pool subgraph) are modelled as
oracle functions passed in as parameters, as §9 of the design notes suggests.
-/

/-- A raw field value arriving from the pool subgraph: either something
`float(...)` accepts (an int, a float, or a numeric string), carried as its
numeric value, or something that makes `float(...)` raise `TypeError` or
`ValueError` (`None`, a non-numeric string, ...). -/
inductive RawValue where
  | numeric (q : ℝ) : RawValue
  | nonNumeric : RawValue

/-- `normalize_value(value, decimals)` from the source: `float(value) / 10 ** decimals`,
with `TypeError`/`ValueError` caught, logged and turned into `None`. -/
noncomputable def normalize_value (value : RawValue) (decimals : ℕ) : Option ℝ :=
  match value with
  | .numeric q => some (q / 10 ^ decimals)
  | .nonNumeric => none

/-- The block identifier returned by `get_block_from_timestamp` (the subgraph
may deliver it as an int or as a string); Python truthiness of it decides the
`if not block_number` guard in `main`. -/
inductive BlockId where
  | intId (n : ℤ) : BlockId
  | strId (s : String) : BlockId
deriving DecidableEq

/-- Python truthiness of a block identifier: `0` and `""` are falsy. -/
def BlockId.truthy : BlockId → Bool
  | .intId n => n != 0
  | .strId s => s != ""

/-- The raw pool record returned by `query_pool_at_block` (the `gammaPool`
entity). The token decimal counts are parsed with `int(...)` and never used
afterwards. -/
structure RawPoolSnapshot where
  lpInvariant : RawValue
  lpBorrowedInvariant : RawValue
  lastPrice : RawValue
  totalSupply : RawValue
  token0Decimals : ℤ
  token1Decimals : ℤ

/-- The `pool_creation_data` dict captured on the first successful step. -/
structure Baseline where
  totalInvariant : ℝ
  totalSupply : ℝ
  lastPrice : ℝ

/-- `total_lp_return_percent` as computed in `main`:
`((totalInvariant / base.totalInvariant) / (totalSupply / base.totalSupply))
  * sqrt(lastPrice / base.lastPrice) - 1`. -/
noncomputable def totalLPReturn (base : Baseline) (totalInvariant totalSupply lastPrice : ℝ) : ℝ :=
  ((totalInvariant / base.totalInvariant) / (totalSupply / base.totalSupply))
    * Real.sqrt (lastPrice / base.lastPrice) - 1

/-- `spot_return_percent` as computed in `main`:
`((lastPrice / base.lastPrice) * 0.5 + 0.5) / 1 - 1`. -/
noncomputable def spotReturn (base : Baseline) (lastPrice : ℝ) : ℝ :=
  ((lastPrice / base.lastPrice) * 0.5 + 0.5) / 1 - 1

/-- One csv row handed to `save_to_csv`. `utcTimestamp` models the formatted
UTC string by the cursor timestamp it is derived from. The four numeric
fields and the two metrics carry the `round(..., 6)` applied at assembly,
modelled by the rounding function the driver is parametrized with. -/
structure OutputRow where
  utcTimestamp : ℤ
  blockNumber : BlockId
  totalInvariant : ℝ
  totalSupply : ℝ
  lastPrice : ℝ
  totalLPReturnPercent : Option ℝ
  spotReturnPercent : Option ℝ

/-- The outcome of one iteration of the `while` loop body. `crash` models an
uncaught `TypeError` raised when a `None` from `normalize_value` reaches
arithmetic (the interpreter terminates there, so no later state is
observable). -/
inductive StepOutcome where
  | crash : StepOutcome
  | skipped : StepOutcome
  | emitted (row : OutputRow) : StepOutcome

/-- The arithmetic-domain error conditions of the metric computation in
`main` (spec sections 4.4 step 6 and 7(c)): Python raises `ZeroDivisionError`
when a division denominator is zero — `baseline.totalInvariant`,
`baseline.totalSupply`, the per-share denominator
`totalSupply / baseline.totalSupply`, or `baseline.lastPrice` — and
`ValueError` when `math.sqrt` is applied to a negative price ratio. -/
def metricsCrash (base : Baseline) (totalSupply lastPrice : ℝ) : Prop :=
  base.totalInvariant = 0 ∨ base.totalSupply = 0 ∨ totalSupply / base.totalSupply = 0 ∨
    base.lastPrice = 0 ∨ lastPrice / base.lastPrice < 0

noncomputable instance (base : Baseline) (s p : ℝ) : Decidable (metricsCrash base s p) := by
  unfold metricsCrash
  infer_instance

/-- One iteration of the loop body of `main`, as the pure step function
`(cursor, baseline) -> (outcome, newBaseline, nextCursor)`.
`resolve` models `get_block_from_timestamp`, `fetch` models
`query_pool_at_block` (each `none` covering transport errors, GraphQL errors
and empty results), and `round6` models Python `round(..., 6)`.

Branches, in source order: the `if not block_number` skip; the
`else` skip when the pool query returns nothing; the crash when any of the
four normalizations yields `None` (the source performs `+` on it unguarded —
an uncaught `TypeError`, so the cursor is not advanced and the baseline is as
at entry); the crash on an arithmetic-domain error in the unguarded metric
computation (`ZeroDivisionError`/`ValueError`, see `metricsCrash` — the
baseline capture at lines 120-125 precedes the metric computation, so the
state at death carries the captured baseline, and again no row and no cursor
advance); otherwise baseline capture (only when `pool_creation_data is
None`), metric computation and row emission. -/
noncomputable def runStep (resolve : ℤ → Option BlockId) (fetch : BlockId → Option RawPoolSnapshot)
    (round6 : ℝ → ℝ) (cursor : ℤ) (baseline : Option Baseline) :
    StepOutcome × Option Baseline × ℤ :=
  match resolve cursor with
  | none => (.skipped, baseline, cursor + 7 * 86400)
  | some blk =>
    if !blk.truthy then (.skipped, baseline, cursor + 7 * 86400)
    else
      match fetch blk with
      | none => (.skipped, baseline, cursor + 7 * 86400)
      | some pool =>
        match normalize_value pool.lpInvariant 12, normalize_value pool.lpBorrowedInvariant 12,
            normalize_value pool.lastPrice 6, normalize_value pool.totalSupply 12 with
        | some lpInv, some lpBor, some lastP, some totSup =>
          let base : Baseline :=
            match baseline with
            | none => ⟨lpInv + lpBor, totSup, lastP⟩
            | some b => b
          let totalInvariant := lpInv + lpBor
          if metricsCrash base totSup lastP then (.crash, some base, cursor)
          else
            let row : OutputRow :=
              { utcTimestamp := cursor
                blockNumber := blk
                totalInvariant := round6 totalInvariant
                totalSupply := round6 totSup
                lastPrice := round6 lastP
                totalLPReturnPercent := some (round6 (totalLPReturn base totalInvariant totSup lastP))
                spotReturnPercent := some (round6 (spotReturn base lastP)) }
            (.emitted row, some base, cursor + 7 * 86400)
        | _, _, _, _ => (.crash, baseline, cursor)

/-- The observable result of running the loop of `main` to completion (or to
an uncaught exception): the rows written, the final `pool_creation_data`, the
final cursor, the number of loop-body iterations executed, and whether the
run died on an uncaught exception. -/
structure RunResult where
  rows : List OutputRow
  baseline : Option Baseline
  finalCursor : ℤ
  iterations : ℕ
  crashed : Bool

/-- The `while current_timestamp <= today_timestamp` loop of `main`, from a
given cursor and baseline. `endBound` models `today_timestamp`, computed once
before the loop. -/
noncomputable def runFrom (resolve : ℤ → Option BlockId) (fetch : BlockId → Option RawPoolSnapshot)
    (round6 : ℝ → ℝ) (endBound : ℤ) (cursor : ℤ) (baseline : Option Baseline) : RunResult :=
  if _h : cursor ≤ endBound then
    match runStep resolve fetch round6 cursor baseline with
    | (.crash, b, _) => ⟨[], b, cursor, 1, true⟩
    | (.skipped, b, _) =>
      let r := runFrom resolve fetch round6 endBound (cursor + 7 * 86400) b
      ⟨r.rows, r.baseline, r.finalCursor, r.iterations + 1, r.crashed⟩
    | (.emitted row, b, _) =>
      let r := runFrom resolve fetch round6 endBound (cursor + 7 * 86400) b
      ⟨row :: r.rows, r.baseline, r.finalCursor, r.iterations + 1, r.crashed⟩
  else ⟨[], baseline, cursor, 0, false⟩
termination_by (endBound + 1 - cursor).toNat
decreasing_by all_goals omega

/-! ### Branch lemmas for `runStep` -/

/-- If the block subgraph yields nothing, the step is a skip that leaves the
baseline untouched and advances the cursor by one week. -/
theorem runStep_of_resolve_none (resolve : ℤ → Option BlockId)
    (fetch : BlockId → Option RawPoolSnapshot) (round6 : ℝ → ℝ) (cursor : ℤ)
    (baseline : Option Baseline) (hres : resolve cursor = none) :
    runStep resolve fetch round6 cursor baseline = (.skipped, baseline, cursor + 7 * 86400) := by
  simp only [runStep, hres]

/-- If the resolved block identifier is Python-falsy, the step is a skip. -/
theorem runStep_of_falsy (resolve : ℤ → Option BlockId)
    (fetch : BlockId → Option RawPoolSnapshot) (round6 : ℝ → ℝ) (cursor : ℤ)
    (baseline : Option Baseline) (blk : BlockId) (hres : resolve cursor = some blk)
    (ht : blk.truthy = false) :
    runStep resolve fetch round6 cursor baseline = (.skipped, baseline, cursor + 7 * 86400) := by
  simp only [runStep, hres, ht, Bool.not_false, if_true]

/-- If the pool subgraph yields nothing, the step is a skip. -/
theorem runStep_of_fetch_none (resolve : ℤ → Option BlockId)
    (fetch : BlockId → Option RawPoolSnapshot) (round6 : ℝ → ℝ) (cursor : ℤ)
    (baseline : Option Baseline) (blk : BlockId) (hres : resolve cursor = some blk)
    (ht : blk.truthy = true) (hf : fetch blk = none) :
    runStep resolve fetch round6 cursor baseline = (.skipped, baseline, cursor + 7 * 86400) := by
  simp only [runStep, hres, ht, Bool.not_true, Bool.false_eq_true, if_false, hf]

/-- A fully successful step with no baseline yet: the baseline is captured
from this step's normalized values and (absent an arithmetic-domain error)
the row is emitted. -/
theorem runStep_success_none (resolve : ℤ → Option BlockId)
    (fetch : BlockId → Option RawPoolSnapshot) (round6 : ℝ → ℝ) (cursor : ℤ)
    (blk : BlockId) (pool : RawPoolSnapshot) (lpInv lpBor lastP totSup : ℝ)
    (hres : resolve cursor = some blk) (ht : blk.truthy = true)
    (hf : fetch blk = some pool)
    (h1 : normalize_value pool.lpInvariant 12 = some lpInv)
    (h2 : normalize_value pool.lpBorrowedInvariant 12 = some lpBor)
    (h3 : normalize_value pool.lastPrice 6 = some lastP)
    (h4 : normalize_value pool.totalSupply 12 = some totSup)
    (hok : ¬ metricsCrash ⟨lpInv + lpBor, totSup, lastP⟩ totSup lastP) :
    runStep resolve fetch round6 cursor none =
      (.emitted ⟨cursor, blk, round6 (lpInv + lpBor), round6 totSup, round6 lastP,
          some (round6 (totalLPReturn ⟨lpInv + lpBor, totSup, lastP⟩ (lpInv + lpBor) totSup lastP)),
          some (round6 (spotReturn ⟨lpInv + lpBor, totSup, lastP⟩ lastP))⟩,
        some ⟨lpInv + lpBor, totSup, lastP⟩, cursor + 7 * 86400) := by
  simp only [runStep, hres, ht, Bool.not_true, Bool.false_eq_true, if_false, hf, h1, h2, h3, h4,
    if_neg hok]

/-- A fully successful step with an established baseline: the baseline is
kept and (absent an arithmetic-domain error) the metrics divide by it. -/
theorem runStep_success_some (resolve : ℤ → Option BlockId)
    (fetch : BlockId → Option RawPoolSnapshot) (round6 : ℝ → ℝ) (cursor : ℤ)
    (base : Baseline) (blk : BlockId) (pool : RawPoolSnapshot) (lpInv lpBor lastP totSup : ℝ)
    (hres : resolve cursor = some blk) (ht : blk.truthy = true)
    (hf : fetch blk = some pool)
    (h1 : normalize_value pool.lpInvariant 12 = some lpInv)
    (h2 : normalize_value pool.lpBorrowedInvariant 12 = some lpBor)
    (h3 : normalize_value pool.lastPrice 6 = some lastP)
    (h4 : normalize_value pool.totalSupply 12 = some totSup)
    (hok : ¬ metricsCrash base totSup lastP) :
    runStep resolve fetch round6 cursor (some base) =
      (.emitted ⟨cursor, blk, round6 (lpInv + lpBor), round6 totSup, round6 lastP,
          some (round6 (totalLPReturn base (lpInv + lpBor) totSup lastP)),
          some (round6 (spotReturn base lastP))⟩,
        some base, cursor + 7 * 86400) := by
  simp only [runStep, hres, ht, Bool.not_true, Bool.false_eq_true, if_false, hf, h1, h2, h3, h4,
    if_neg hok]

/-- If any of the four normalizations yields `None`, the step crashes (an
uncaught `TypeError` on the unguarded arithmetic) with the entry baseline and
the cursor not advanced. -/
theorem runStep_crash_of_norm_none (resolve : ℤ → Option BlockId)
    (fetch : BlockId → Option RawPoolSnapshot) (round6 : ℝ → ℝ) (cursor : ℤ)
    (baseline : Option Baseline) (blk : BlockId) (pool : RawPoolSnapshot)
    (hres : resolve cursor = some blk) (ht : blk.truthy = true)
    (hf : fetch blk = some pool)
    (hn : normalize_value pool.lpInvariant 12 = none ∨
      normalize_value pool.lpBorrowedInvariant 12 = none ∨
      normalize_value pool.lastPrice 6 = none ∨
      normalize_value pool.totalSupply 12 = none) :
    runStep resolve fetch round6 cursor baseline = (.crash, baseline, cursor) := by
  simp only [runStep, hres, ht, Bool.not_true, Bool.false_eq_true, if_false, hf]
  rcases h1 : normalize_value pool.lpInvariant 12 with _ | lpInv <;>
    rcases h2 : normalize_value pool.lpBorrowedInvariant 12 with _ | lpBor <;>
      rcases h3 : normalize_value pool.lastPrice 6 with _ | lastP <;>
        rcases h4 : normalize_value pool.totalSupply 12 with _ | totSup <;>
          simp_all

/-- An arithmetic-domain error at the baseline-capturing step: the baseline
was already captured when the metric computation raised, the cursor is not
advanced and no row is emitted. -/
theorem runStep_crash_of_metrics_none (resolve : ℤ → Option BlockId)
    (fetch : BlockId → Option RawPoolSnapshot) (round6 : ℝ → ℝ) (cursor : ℤ)
    (blk : BlockId) (pool : RawPoolSnapshot) (lpInv lpBor lastP totSup : ℝ)
    (hres : resolve cursor = some blk) (ht : blk.truthy = true)
    (hf : fetch blk = some pool)
    (h1 : normalize_value pool.lpInvariant 12 = some lpInv)
    (h2 : normalize_value pool.lpBorrowedInvariant 12 = some lpBor)
    (h3 : normalize_value pool.lastPrice 6 = some lastP)
    (h4 : normalize_value pool.totalSupply 12 = some totSup)
    (hcr : metricsCrash ⟨lpInv + lpBor, totSup, lastP⟩ totSup lastP) :
    runStep resolve fetch round6 cursor none =
      (.crash, some ⟨lpInv + lpBor, totSup, lastP⟩, cursor) := by
  simp only [runStep, hres, ht, Bool.not_true, Bool.false_eq_true, if_false, hf, h1, h2, h3, h4,
    if_pos hcr]

/-- An arithmetic-domain error at a step with an established baseline: the
baseline is untouched, the cursor is not advanced and no row is emitted. -/
theorem runStep_crash_of_metrics_some (resolve : ℤ → Option BlockId)
    (fetch : BlockId → Option RawPoolSnapshot) (round6 : ℝ → ℝ) (cursor : ℤ)
    (base : Baseline) (blk : BlockId) (pool : RawPoolSnapshot) (lpInv lpBor lastP totSup : ℝ)
    (hres : resolve cursor = some blk) (ht : blk.truthy = true)
    (hf : fetch blk = some pool)
    (h1 : normalize_value pool.lpInvariant 12 = some lpInv)
    (h2 : normalize_value pool.lpBorrowedInvariant 12 = some lpBor)
    (h3 : normalize_value pool.lastPrice 6 = some lastP)
    (h4 : normalize_value pool.totalSupply 12 = some totSup)
    (hcr : metricsCrash base totSup lastP) :
    runStep resolve fetch round6 cursor (some base) = (.crash, some base, cursor) := by
  simp only [runStep, hres, ht, Bool.not_true, Bool.false_eq_true, if_false, hf, h1, h2, h3, h4,
    if_pos hcr]

/-- Exhaustive shape of one step: it is a crash (cursor not advanced; the
recorded baseline is the entry one, or the one just captured when the entry
baseline was `none`), a skip (baseline untouched, cursor advanced one week),
or an emission (cursor advanced one week, baseline kept if it already
existed). -/
theorem runStep_master (resolve : ℤ → Option BlockId)
    (fetch : BlockId → Option RawPoolSnapshot) (round6 : ℝ → ℝ) (cursor : ℤ)
    (baseline : Option Baseline) :
    (∃ b, runStep resolve fetch round6 cursor baseline = (.crash, b, cursor) ∧
      (baseline = none ∨ b = baseline)) ∨
    runStep resolve fetch round6 cursor baseline = (.skipped, baseline, cursor + 7 * 86400) ∨
    ∃ row base, runStep resolve fetch round6 cursor baseline =
        (.emitted row, some base, cursor + 7 * 86400) ∧
      (baseline = none ∨ baseline = some base) := by
  unfold runStep
  split
  · right; left; rfl
  · split
    · right; left; rfl
    · split
      · right; left; rfl
      · split
        · dsimp only
          split
          · left
            refine ⟨_, rfl, ?_⟩
            cases baseline
            · left; rfl
            · right; rfl
          · right; right
            refine ⟨_, _, rfl, ?_⟩
            cases baseline
            · left; rfl
            · right; rfl
        · left
          refine ⟨baseline, rfl, ?_⟩
          cases baseline
          · left; rfl
          · right; rfl

/-- A step whose outcome is not a crash advances the cursor by exactly one
week (604800 seconds). -/
theorem runStep_nextCursor (resolve : ℤ → Option BlockId)
    (fetch : BlockId → Option RawPoolSnapshot) (round6 : ℝ → ℝ) (cursor : ℤ)
    (baseline : Option Baseline)
    (h : (runStep resolve fetch round6 cursor baseline).1 ≠ StepOutcome.crash) :
    (runStep resolve fetch round6 cursor baseline).2.2 = cursor + 7 * 86400 := by
  rcases runStep_master resolve fetch round6 cursor baseline with ⟨b, hc, _⟩ | hs | ⟨row, base, he, _⟩
  · rw [hc] at h; exact absurd rfl h
  · rw [hs]
  · rw [he]

/-- A step whose outcome is a skip leaves the baseline untouched and advances
the cursor by one week. -/
theorem runStep_eq_of_skipped (resolve : ℤ → Option BlockId)
    (fetch : BlockId → Option RawPoolSnapshot) (round6 : ℝ → ℝ) (cursor : ℤ)
    (baseline : Option Baseline)
    (h : (runStep resolve fetch round6 cursor baseline).1 = StepOutcome.skipped) :
    runStep resolve fetch round6 cursor baseline = (.skipped, baseline, cursor + 7 * 86400) := by
  rcases runStep_master resolve fetch round6 cursor baseline with ⟨b, hc, _⟩ | hs | ⟨row, base, he, _⟩
  · rw [hc] at h; exact absurd h (by simp)
  · exact hs
  · rw [he] at h; exact absurd h (by simp)

/-! ### Unfolding lemmas for `runFrom` -/

/-- Once the cursor exceeds the end bound the loop does nothing. -/
theorem runFrom_of_gt (resolve : ℤ → Option BlockId)
    (fetch : BlockId → Option RawPoolSnapshot) (round6 : ℝ → ℝ) (endBound cursor : ℤ)
    (baseline : Option Baseline) (h : endBound < cursor) :
    runFrom resolve fetch round6 endBound cursor baseline = ⟨[], baseline, cursor, 0, false⟩ := by
  rw [runFrom]
  rw [dif_neg (by omega)]

/-- A crashing step aborts the run at the current cursor. -/
theorem runFrom_crash (resolve : ℤ → Option BlockId)
    (fetch : BlockId → Option RawPoolSnapshot) (round6 : ℝ → ℝ) (endBound cursor : ℤ)
    (baseline : Option Baseline) (b : Option Baseline) (c : ℤ)
    (h : cursor ≤ endBound)
    (hs : runStep resolve fetch round6 cursor baseline = (.crash, b, c)) :
    runFrom resolve fetch round6 endBound cursor baseline = ⟨[], b, cursor, 1, true⟩ := by
  rw [runFrom, dif_pos h, hs]

/-- A skipped step contributes one iteration and recurses at the advanced
cursor. -/
theorem runFrom_skip (resolve : ℤ → Option BlockId)
    (fetch : BlockId → Option RawPoolSnapshot) (round6 : ℝ → ℝ) (endBound cursor : ℤ)
    (baseline : Option Baseline) (b : Option Baseline) (c : ℤ)
    (h : cursor ≤ endBound)
    (hs : runStep resolve fetch round6 cursor baseline = (.skipped, b, c)) :
    runFrom resolve fetch round6 endBound cursor baseline =
      ⟨(runFrom resolve fetch round6 endBound (cursor + 7 * 86400) b).rows,
       (runFrom resolve fetch round6 endBound (cursor + 7 * 86400) b).baseline,
       (runFrom resolve fetch round6 endBound (cursor + 7 * 86400) b).finalCursor,
       (runFrom resolve fetch round6 endBound (cursor + 7 * 86400) b).iterations + 1,
       (runFrom resolve fetch round6 endBound (cursor + 7 * 86400) b).crashed⟩ := by
  rw [runFrom, dif_pos h, hs]

/-- An emitting step prepends its row, contributes one iteration and recurses
at the advanced cursor. -/
theorem runFrom_emit (resolve : ℤ → Option BlockId)
    (fetch : BlockId → Option RawPoolSnapshot) (round6 : ℝ → ℝ) (endBound cursor : ℤ)
    (baseline : Option Baseline) (row : OutputRow) (b : Option Baseline) (c : ℤ)
    (h : cursor ≤ endBound)
    (hs : runStep resolve fetch round6 cursor baseline = (.emitted row, b, c)) :
    runFrom resolve fetch round6 endBound cursor baseline =
      ⟨row :: (runFrom resolve fetch round6 endBound (cursor + 7 * 86400) b).rows,
       (runFrom resolve fetch round6 endBound (cursor + 7 * 86400) b).baseline,
       (runFrom resolve fetch round6 endBound (cursor + 7 * 86400) b).finalCursor,
       (runFrom resolve fetch round6 endBound (cursor + 7 * 86400) b).iterations + 1,
       (runFrom resolve fetch round6 endBound (cursor + 7 * 86400) b).crashed⟩ := by
  rw [runFrom, dif_pos h, hs]

/-- An established baseline survives the rest of the run untouched. -/
theorem runFrom_baseline_some (resolve : ℤ → Option BlockId)
    (fetch : BlockId → Option RawPoolSnapshot) (round6 : ℝ → ℝ) (endBound cursor : ℤ)
    (base : Baseline) :
    (runFrom resolve fetch round6 endBound cursor (some base)).baseline = some base := by
  by_cases h : cursor ≤ endBound
  · rcases runStep_master resolve fetch round6 cursor (some base) with ⟨b, hc, hcb⟩ | hs |
      ⟨row, b, he, hb⟩
    · rw [runFrom_crash resolve fetch round6 endBound cursor (some base) b cursor h hc]
      rcases hcb with hcb | hcb
      · exact absurd hcb (by simp)
      · exact hcb
    · rw [runFrom_skip resolve fetch round6 endBound cursor (some base) (some base)
        (cursor + 7 * 86400) h hs]
      exact runFrom_baseline_some resolve fetch round6 endBound (cursor + 7 * 86400) base
    · rcases hb with hb | hb
      · exact absurd hb (by simp)
      · injection hb with hb'
        subst hb'
        rw [runFrom_emit resolve fetch round6 endBound cursor (some base) row (some base)
          (cursor + 7 * 86400) h he]
        exact runFrom_baseline_some resolve fetch round6 endBound (cursor + 7 * 86400) base
  · rw [runFrom_of_gt resolve fetch round6 endBound cursor (some base) (by omega)]
termination_by (endBound + 1 - cursor).toNat
decreasing_by all_goals omega

/-- When the run finishes without an uncaught exception, its final cursor has
passed the end bound. -/
theorem runFrom_finalCursor_gt (resolve : ℤ → Option BlockId)
    (fetch : BlockId → Option RawPoolSnapshot) (round6 : ℝ → ℝ) (endBound cursor : ℤ)
    (baseline : Option Baseline)
    (h : (runFrom resolve fetch round6 endBound cursor baseline).crashed = false) :
    endBound < (runFrom resolve fetch round6 endBound cursor baseline).finalCursor := by
  by_cases hle : cursor ≤ endBound
  · rcases runStep_master resolve fetch round6 cursor baseline with ⟨bc, hc, _⟩ | hs |
      ⟨row, b, he, _⟩
    · rw [runFrom_crash resolve fetch round6 endBound cursor baseline bc cursor hle hc] at h
      exact absurd h (by simp)
    · rw [runFrom_skip resolve fetch round6 endBound cursor baseline baseline
        (cursor + 7 * 86400) hle hs] at h ⊢
      exact runFrom_finalCursor_gt resolve fetch round6 endBound (cursor + 7 * 86400) baseline h
    · rw [runFrom_emit resolve fetch round6 endBound cursor baseline row (some b)
        (cursor + 7 * 86400) hle he] at h ⊢
      exact runFrom_finalCursor_gt resolve fetch round6 endBound (cursor + 7 * 86400) (some b) h
  · rw [runFrom_of_gt resolve fetch round6 endBound cursor baseline (by omega)]
    show endBound < cursor
    omega
termination_by (endBound + 1 - cursor).toNat
decreasing_by all_goals omega

/-- A non-crashing loop body within the bound contributes exactly one
iteration on top of the run from the advanced cursor, which is also
non-crashing. -/
theorem runFrom_iterations_succ (resolve : ℤ → Option BlockId)
    (fetch : BlockId → Option RawPoolSnapshot) (round6 : ℝ → ℝ) (endBound cursor : ℤ)
    (baseline : Option Baseline)
    (hle : cursor ≤ endBound)
    (hnc : (runFrom resolve fetch round6 endBound cursor baseline).crashed = false) :
    ∃ b, (runFrom resolve fetch round6 endBound cursor baseline).iterations =
        (runFrom resolve fetch round6 endBound (cursor + 7 * 86400) b).iterations + 1 ∧
      (runFrom resolve fetch round6 endBound (cursor + 7 * 86400) b).crashed = false := by
  rcases runStep_master resolve fetch round6 cursor baseline with ⟨bc, hc, _⟩ | hs | ⟨row, b, he, _⟩
  · rw [runFrom_crash resolve fetch round6 endBound cursor baseline bc cursor hle hc] at hnc
    exact absurd hnc (by simp)
  · rw [runFrom_skip resolve fetch round6 endBound cursor baseline baseline
      (cursor + 7 * 86400) hle hs] at hnc ⊢
    exact ⟨baseline, rfl, hnc⟩
  · rw [runFrom_emit resolve fetch round6 endBound cursor baseline row (some b)
      (cursor + 7 * 86400) hle he] at hnc ⊢
    exact ⟨some b, rfl, hnc⟩

/-- The last iteration: if the cursor is within the bound but one more week
puts it past the bound, a non-crashing run performs exactly one iteration. -/
theorem runFrom_iterations_last (resolve : ℤ → Option BlockId)
    (fetch : BlockId → Option RawPoolSnapshot) (round6 : ℝ → ℝ) (endBound cursor : ℤ)
    (baseline : Option Baseline)
    (hle : cursor ≤ endBound) (hlt : endBound < cursor + 7 * 86400)
    (hnc : (runFrom resolve fetch round6 endBound cursor baseline).crashed = false) :
    (runFrom resolve fetch round6 endBound cursor baseline).iterations = 1 := by
  obtain ⟨b, hit, _⟩ := runFrom_iterations_succ resolve fetch round6 endBound cursor baseline hle hnc
  rw [hit, runFrom_of_gt resolve fetch round6 endBound (cursor + 7 * 86400) b (by omega)]

/-! ### Concrete oracles for witnesses -/

/-- A block resolver that never finds a block. -/
def resolveNone : ℤ → Option BlockId := fun _ => none

/-- A pool fetcher that never finds data. -/
def fetchNone : BlockId → Option RawPoolSnapshot := fun _ => none

/-- A block resolver that always finds block 100. -/
def resolveB : ℤ → Option BlockId := fun _ => some (BlockId.intId 100)

/-- A block resolver that always reports the numerically valid but
Python-falsy block number 0. -/
def resolveZero : ℤ → Option BlockId := fun _ => some (BlockId.intId 0)

/-- The §8 scenario pool record: all four fields numeric. -/
noncomputable def poolA : RawPoolSnapshot :=
  ⟨.numeric 12000000000000, .numeric 0, .numeric 1000000, .numeric 10000000000000, 18, 6⟩

/-- A pool fetcher that always returns the §8 scenario record. -/
noncomputable def fetchA : BlockId → Option RawPoolSnapshot := fun _ => some poolA

/-- A pool record whose `lpInvariant` is not numeric (e.g. the subgraph
delivered `null` or a malformed string). -/
noncomputable def poolBad : RawPoolSnapshot :=
  ⟨.nonNumeric, .numeric 0, .numeric 1000000, .numeric 10000000000000, 18, 6⟩

/-- A pool fetcher that always returns the malformed record. -/
noncomputable def fetchBad : BlockId → Option RawPoolSnapshot := fun _ => some poolBad

/-! ### Claim theorems -/

/-- C7: `normalize_value` is total from the caller's perspective: for every
input value and decimal count it either returns the value divided by
`10 ^ decimals`, or returns `None` exactly when the input cannot be
interpreted as numeric; no exception escapes (the Lean function is total). -/
theorem normalize_value_total (v : RawValue) (d : ℕ) :
    (∃ q, v = RawValue.numeric q ∧ normalize_value v d = some (q / 10 ^ d)) ∨
    (v = RawValue.nonNumeric ∧ normalize_value v d = none) := by
  cases v with
  | numeric q => exact Or.inl ⟨q, rfl, rfl⟩
  | nonNumeric => exact Or.inr ⟨rfl, rfl⟩

/-- C8: on numeric input, `normalize_value` is inverse to multiplication by
`10 ^ d`: the returned value times `10 ^ d` recovers the input (exactly, in
the real-valued model, hence within any floating-point tolerance). -/
theorem normalize_value_inverse (q : ℝ) (d : ℕ) :
    ∃ r, normalize_value (RawValue.numeric q) d = some r ∧ r * 10 ^ d = q := by
  refine ⟨q / 10 ^ d, rfl, ?_⟩
  exact div_mul_cancel₀ q (pow_ne_zero d (by norm_num))

/-- C3 (defect witness): when a normalization yields `None`, the step does
not skip — the unguarded arithmetic raises, the run crashes at the current
cursor (no row, no cursor advance, loop aborted). Evaluated at a concrete
failing input: block 100 resolves, the pool record has a non-numeric
`lpInvariant`. -/
theorem normalization_none_crashes :
    normalize_value poolBad.lpInvariant 12 = none ∧
    (runStep resolveB fetchBad id 0 none).1 = StepOutcome.crash ∧
    (runStep resolveB fetchBad id 0 none).1 ≠ StepOutcome.skipped ∧
    (runStep resolveB fetchBad id 0 none).2.2 = 0 := by
  refine ⟨rfl, rfl, ?_, rfl⟩
  have h2 : (runStep resolveB fetchBad id 0 none).1 = StepOutcome.crash := rfl
  rw [h2]
  simp

/-- C9: a resolved block identifier that is Python-falsy (`0`, `""`) is
treated as "no block found": the step skips, leaves all state untouched,
advances the cursor one week, and the pool state fetcher is never consulted
(the step result does not depend on it). -/
theorem falsy_block_skips (resolve : ℤ → Option BlockId) (round6 : ℝ → ℝ) (cursor : ℤ)
    (baseline : Option Baseline) (blk : BlockId)
    (hres : resolve cursor = some blk) (ht : blk.truthy = false) :
    ∀ fetch fetch2 : BlockId → Option RawPoolSnapshot,
      runStep resolve fetch round6 cursor baseline = (.skipped, baseline, cursor + 604800) ∧
      runStep resolve fetch round6 cursor baseline =
        runStep resolve fetch2 round6 cursor baseline := by
  intro fetch fetch2
  have e : (7 : ℤ) * 86400 = 604800 := by norm_num
  have h1 := runStep_of_falsy resolve fetch round6 cursor baseline blk hres ht
  have h2 := runStep_of_falsy resolve fetch2 round6 cursor baseline blk hres ht
  rw [e] at h1 h2
  exact ⟨h1, h1.trans h2.symm⟩

/-- C9 witness: block number 0 at cursor 0. -/
theorem falsy_block_skips_witness :
    resolveZero 0 = some (BlockId.intId 0) ∧ (BlockId.intId 0).truthy = false ∧
    (runStep resolveZero fetchNone id 0 none = (.skipped, none, 0 + 604800) ∧
      runStep resolveZero fetchNone id 0 none = runStep resolveZero fetchA id 0 none) :=
  ⟨rfl, by decide,
    falsy_block_skips resolveZero id 0 none (BlockId.intId 0) rfl (by decide) fetchNone fetchA⟩

/-- C1: on every successful step with an established baseline whose fields
are nonzero — the step's own values being inside the arithmetic domain
(`totalSupply` nonzero, price ratio nonnegative), so that the metric
computation succeeds and the row is actually emitted — the emitted
`totalLPReturnPercent` is (the output rounding of)
`((totalInvariant / baseline.totalInvariant) / (totalSupply / baseline.totalSupply))
  * sqrt(lastPrice / baseline.lastPrice) - 1`, where
`totalInvariant = lpInvariant + lpBorrowedInvariant` of this step's
normalized sample (and `spotReturnPercent` is the spot formula). -/
theorem lp_return_formula_on_success (resolve : ℤ → Option BlockId)
    (fetch : BlockId → Option RawPoolSnapshot) (round6 : ℝ → ℝ) (cursor : ℤ)
    (base : Baseline) (blk : BlockId) (pool : RawPoolSnapshot) (lpInv lpBor lastP totSup : ℝ)
    (hres : resolve cursor = some blk) (ht : blk.truthy = true)
    (hf : fetch blk = some pool)
    (h1 : normalize_value pool.lpInvariant 12 = some lpInv)
    (h2 : normalize_value pool.lpBorrowedInvariant 12 = some lpBor)
    (h3 : normalize_value pool.lastPrice 6 = some lastP)
    (h4 : normalize_value pool.totalSupply 12 = some totSup)
    (hb1 : base.totalInvariant ≠ 0) (hb2 : base.totalSupply ≠ 0) (hb3 : base.lastPrice ≠ 0)
    (hS : totSup ≠ 0) (hP : 0 ≤ lastP / base.lastPrice) :
    (runStep resolve fetch round6 cursor (some base)).1 =
      StepOutcome.emitted
        ⟨cursor, blk, round6 (lpInv + lpBor), round6 totSup, round6 lastP,
         some (round6 ((((lpInv + lpBor) / base.totalInvariant) / (totSup / base.totalSupply)) *
           Real.sqrt (lastP / base.lastPrice) - 1)),
         some (round6 (((lastP / base.lastPrice) * 0.5 + 0.5) / 1 - 1))⟩ := by
  have hok : ¬ metricsCrash base totSup lastP := by
    simp only [metricsCrash, div_eq_zero_iff, not_or, not_lt]
    exact ⟨hb1, hb2, ⟨hS, hb2⟩, hb3, hP⟩
  rw [runStep_success_some resolve fetch round6 cursor base blk pool lpInv lpBor lastP totSup
    hres ht hf h1 h2 h3 h4 hok]
  rfl

/-- C1 witness: the §8 scenario pool at block 100, against the baseline
(12, 10, 1). -/
theorem lp_return_formula_on_success_witness :
    resolveB 0 = some (BlockId.intId 100) ∧ (BlockId.intId 100).truthy = true ∧
    fetchA (BlockId.intId 100) = some poolA ∧
    normalize_value poolA.lpInvariant 12 = some (12000000000000 / 10 ^ 12) ∧
    normalize_value poolA.lpBorrowedInvariant 12 = some (0 / 10 ^ 12) ∧
    normalize_value poolA.lastPrice 6 = some (1000000 / 10 ^ 6) ∧
    normalize_value poolA.totalSupply 12 = some (10000000000000 / 10 ^ 12) ∧
    (Baseline.mk 12 10 1).totalInvariant ≠ 0 ∧
    ((10000000000000 : ℝ) / 10 ^ 12 ≠ 0) ∧
    (0 ≤ ((1000000 : ℝ) / 10 ^ 6) / (Baseline.mk 12 10 1).lastPrice) ∧
    (runStep resolveB fetchA id 0 (some (Baseline.mk 12 10 1))).1 =
      StepOutcome.emitted
        ⟨0, BlockId.intId 100,
         id ((12000000000000 : ℝ) / 10 ^ 12 + 0 / 10 ^ 12),
         id ((10000000000000 : ℝ) / 10 ^ 12), id ((1000000 : ℝ) / 10 ^ 6),
         some (id (((((12000000000000 : ℝ) / 10 ^ 12 + 0 / 10 ^ 12) / (Baseline.mk 12 10 1).totalInvariant) /
             (((10000000000000 : ℝ) / 10 ^ 12) / (Baseline.mk 12 10 1).totalSupply)) *
           Real.sqrt (((1000000 : ℝ) / 10 ^ 6) / (Baseline.mk 12 10 1).lastPrice) - 1)),
         some (id ((((1000000 : ℝ) / 10 ^ 6) / (Baseline.mk 12 10 1).lastPrice) * 0.5 + 0.5) / 1 - 1)⟩ :=
  ⟨rfl, by decide, rfl, rfl, rfl, rfl, rfl, by norm_num, by norm_num, by norm_num,
    lp_return_formula_on_success resolveB fetchA id 0 (Baseline.mk 12 10 1) (BlockId.intId 100)
      poolA (12000000000000 / 10 ^ 12) (0 / 10 ^ 12) (1000000 / 10 ^ 6) (10000000000000 / 10 ^ 12)
      rfl (by decide) rfl rfl rfl rfl rfl (by norm_num) (by norm_num) (by norm_num) (by norm_num)
      (by norm_num)⟩

/-- C6: at the baseline step itself (the first successful step, all captured
fields nonzero), both computed metrics are exactly 0, and the emitted row
carries the output rounding of 0 for both. -/
theorem metrics_zero_at_baseline_step (resolve : ℤ → Option BlockId)
    (fetch : BlockId → Option RawPoolSnapshot) (round6 : ℝ → ℝ) (cursor : ℤ)
    (blk : BlockId) (pool : RawPoolSnapshot) (lpInv lpBor lastP totSup : ℝ)
    (hres : resolve cursor = some blk) (ht : blk.truthy = true)
    (hf : fetch blk = some pool)
    (h1 : normalize_value pool.lpInvariant 12 = some lpInv)
    (h2 : normalize_value pool.lpBorrowedInvariant 12 = some lpBor)
    (h3 : normalize_value pool.lastPrice 6 = some lastP)
    (h4 : normalize_value pool.totalSupply 12 = some totSup)
    (hI : lpInv + lpBor ≠ 0) (hS : totSup ≠ 0) (hP : lastP ≠ 0) :
    totalLPReturn ⟨lpInv + lpBor, totSup, lastP⟩ (lpInv + lpBor) totSup lastP = 0 ∧
    spotReturn ⟨lpInv + lpBor, totSup, lastP⟩ lastP = 0 ∧
    (runStep resolve fetch round6 cursor none).1 =
      StepOutcome.emitted ⟨cursor, blk, round6 (lpInv + lpBor), round6 totSup, round6 lastP,
        some (round6 0), some (round6 0)⟩ := by
  have hz1 : totalLPReturn ⟨lpInv + lpBor, totSup, lastP⟩ (lpInv + lpBor) totSup lastP = 0 := by
    simp [totalLPReturn, div_self hI, div_self hS, div_self hP, Real.sqrt_one]
  have hz2 : spotReturn ⟨lpInv + lpBor, totSup, lastP⟩ lastP = 0 := by
    simp only [spotReturn, div_self hP]
    norm_num
  have hok : ¬ metricsCrash ⟨lpInv + lpBor, totSup, lastP⟩ totSup lastP := by
    simp only [metricsCrash, div_eq_zero_iff, not_or, not_lt]
    exact ⟨hI, hS, ⟨hS, hS⟩, hP, by rw [div_self hP]; norm_num⟩
  refine ⟨hz1, hz2, ?_⟩
  rw [runStep_success_none resolve fetch round6 cursor blk pool lpInv lpBor lastP totSup
    hres ht hf h1 h2 h3 h4 hok, hz1, hz2]

/-- C6 witness: the §8 scenario pool at block 100 as the very first
successful step. -/
theorem metrics_zero_at_baseline_step_witness :
    ((12000000000000 : ℝ) / 10 ^ 12 + 0 / 10 ^ 12 ≠ 0) ∧
    ((10000000000000 : ℝ) / 10 ^ 12 ≠ 0) ∧ ((1000000 : ℝ) / 10 ^ 6 ≠ 0) ∧
    (totalLPReturn ⟨(12000000000000 : ℝ) / 10 ^ 12 + 0 / 10 ^ 12, (10000000000000 : ℝ) / 10 ^ 12,
        (1000000 : ℝ) / 10 ^ 6⟩ ((12000000000000 : ℝ) / 10 ^ 12 + 0 / 10 ^ 12)
        ((10000000000000 : ℝ) / 10 ^ 12) ((1000000 : ℝ) / 10 ^ 6) = 0 ∧
      spotReturn ⟨(12000000000000 : ℝ) / 10 ^ 12 + 0 / 10 ^ 12, (10000000000000 : ℝ) / 10 ^ 12,
        (1000000 : ℝ) / 10 ^ 6⟩ ((1000000 : ℝ) / 10 ^ 6) = 0 ∧
      (runStep resolveB fetchA id 0 none).1 =
        StepOutcome.emitted ⟨0, BlockId.intId 100,
          id ((12000000000000 : ℝ) / 10 ^ 12 + 0 / 10 ^ 12),
          id ((10000000000000 : ℝ) / 10 ^ 12), id ((1000000 : ℝ) / 10 ^ 6),
          some (id 0), some (id 0)⟩) :=
  ⟨by norm_num, by norm_num, by norm_num,
    metrics_zero_at_baseline_step resolveB fetchA id 0 (BlockId.intId 100) poolA
      (12000000000000 / 10 ^ 12) (0 / 10 ^ 12) (1000000 / 10 ^ 6) (10000000000000 / 10 ^ 12)
      rfl (by decide) rfl rfl rfl rfl rfl (by norm_num) (by norm_num) (by norm_num)⟩

/-- A block resolver that fails during the first week and then always finds
block 100 (for the C2 witness scenario from §8). -/
def resolveLate : ℤ → Option BlockId :=
  fun t => if t < 604800 then none else some (BlockId.intId 100)

/-- C2: the baseline is set exactly once per run and never overwritten. If
the first `k` steps fail (skip) and step `k+1` succeeds, the baseline at the
end of the run — whatever the later steps do — equals step `k+1`'s
normalized values `{lpInvariant + lpBorrowedInvariant, totalSupply,
lastPrice}`, the fixed reference every later metric divides by. -/
theorem baseline_captured_once (resolve : ℤ → Option BlockId)
    (fetch : BlockId → Option RawPoolSnapshot) (round6 : ℝ → ℝ) (endBound : ℤ) :
    ∀ (k : ℕ) (start : ℤ), start + 604800 * (k : ℤ) ≤ endBound →
      (∀ i : ℕ, i < k →
        (runStep resolve fetch round6 (start + 604800 * (i : ℤ)) none).1 = StepOutcome.skipped) →
      ∀ (blk : BlockId) (pool : RawPoolSnapshot) (lpInv lpBor lastP totSup : ℝ),
        resolve (start + 604800 * (k : ℤ)) = some blk → blk.truthy = true →
        fetch blk = some pool →
        normalize_value pool.lpInvariant 12 = some lpInv →
        normalize_value pool.lpBorrowedInvariant 12 = some lpBor →
        normalize_value pool.lastPrice 6 = some lastP →
        normalize_value pool.totalSupply 12 = some totSup →
        (runFrom resolve fetch round6 endBound start none).baseline =
          some ⟨lpInv + lpBor, totSup, lastP⟩ := by
  intro k
  induction k with
  | zero =>
    intro start hle hfail blk pool lpInv lpBor lastP totSup hres ht hf h1 h2 h3 h4
    have e0 : start + 604800 * ((0 : ℕ) : ℤ) = start := by push_cast; ring
    rw [e0] at hres
    have hle0 : start ≤ endBound := by rw [e0] at hle; exact hle
    by_cases hcr : metricsCrash ⟨lpInv + lpBor, totSup, lastP⟩ totSup lastP
    · have hc := runStep_crash_of_metrics_none resolve fetch round6 start blk pool
        lpInv lpBor lastP totSup hres ht hf h1 h2 h3 h4 hcr
      rw [runFrom_crash resolve fetch round6 endBound start none
        (some ⟨lpInv + lpBor, totSup, lastP⟩) start hle0 hc]
    · have he := runStep_success_none resolve fetch round6 start blk pool lpInv lpBor lastP totSup
        hres ht hf h1 h2 h3 h4 hcr
      rw [runFrom_emit resolve fetch round6 endBound start none _ _ _ hle0 he]
      show (runFrom resolve fetch round6 endBound (start + 7 * 86400)
        (some ⟨lpInv + lpBor, totSup, lastP⟩)).baseline = some ⟨lpInv + lpBor, totSup, lastP⟩
      exact runFrom_baseline_some resolve fetch round6 endBound (start + 7 * 86400)
        ⟨lpInv + lpBor, totSup, lastP⟩
  | succ k ih =>
    intro start hle hfail blk pool lpInv lpBor lastP totSup hres ht hf h1 h2 h3 h4
    have e0 : start + 604800 * ((0 : ℕ) : ℤ) = start := by push_cast; ring
    have hs0 := hfail 0 (by omega)
    rw [e0] at hs0
    have hstep := runStep_eq_of_skipped resolve fetch round6 start none hs0
    have hle0 : start ≤ endBound := by
      have hnn : (0 : ℤ) ≤ 604800 * ((k + 1 : ℕ) : ℤ) := by positivity
      omega
    rw [runFrom_skip resolve fetch round6 endBound start none none (start + 7 * 86400) hle0 hstep]
    show (runFrom resolve fetch round6 endBound (start + 7 * 86400) none).baseline =
      some ⟨lpInv + lpBor, totSup, lastP⟩
    have eshift : ∀ j : ℕ, start + 7 * 86400 + 604800 * (j : ℤ) = start + 604800 * ((j + 1 : ℕ) : ℤ) := by
      intro j; push_cast; ring
    refine ih (start + 7 * 86400) ?_ ?_ blk pool lpInv lpBor lastP totSup ?_ ht hf h1 h2 h3 h4
    · rw [eshift k]; exact hle
    · intro i hi
      have := hfail (i + 1) (by omega)
      rw [← eshift i] at this
      exact this
    · rw [eshift k]; exact hres

/-- C2 witness: the resolver fails for the first week (k = 1) and then finds
block 100; the baseline is captured from the second step's normalized
values. -/
theorem baseline_captured_once_witness :
    ((0 : ℤ) + 604800 * ((1 : ℕ) : ℤ) ≤ 604800) ∧
    (runStep resolveLate fetchA id ((0 : ℤ) + 604800 * ((0 : ℕ) : ℤ)) none).1 =
      StepOutcome.skipped ∧
    resolveLate ((0 : ℤ) + 604800 * ((1 : ℕ) : ℤ)) = some (BlockId.intId 100) ∧
    (runFrom resolveLate fetchA id 604800 0 none).baseline =
      some ⟨(12000000000000 : ℝ) / 10 ^ 12 + 0 / 10 ^ 12, (10000000000000 : ℝ) / 10 ^ 12,
        (1000000 : ℝ) / 10 ^ 6⟩ := by
  have hskip : ∀ i : ℕ, i < 1 →
      (runStep resolveLate fetchA id ((0 : ℤ) + 604800 * (i : ℤ)) none).1 = StepOutcome.skipped := by
    intro i hi
    have hi0 : i = 0 := by omega
    subst hi0
    have harg : (0 : ℤ) + 604800 * ((0 : ℕ) : ℤ) = 0 := by norm_num
    rw [harg, runStep_of_resolve_none resolveLate fetchA id 0 none (by norm_num [resolveLate])]
  have hres : resolveLate ((0 : ℤ) + 604800 * ((1 : ℕ) : ℤ)) = some (BlockId.intId 100) := by
    norm_num [resolveLate]
  exact ⟨by norm_num, hskip 0 (by omega), hres,
    baseline_captured_once resolveLate fetchA id 604800 1 0 (by norm_num) hskip
      (BlockId.intId 100) poolA (12000000000000 / 10 ^ 12) (0 / 10 ^ 12) (1000000 / 10 ^ 6)
      (10000000000000 / 10 ^ 12) hres (by decide) rfl rfl rfl rfl rfl⟩

/-- C4: every non-crashing step (resolver failure, fetcher failure, or a
successful emission) advances the cursor by exactly 604800 seconds, and the
loop terminates — when the run does not die on an uncaught exception, its
final cursor has passed the end bound computed once at run start. -/
theorem step_advance_and_loop_termination (resolve : ℤ → Option BlockId)
    (fetch : BlockId → Option RawPoolSnapshot) (round6 : ℝ → ℝ) (endBound : ℤ) :
    (∀ (cursor : ℤ) (baseline : Option Baseline),
        (runStep resolve fetch round6 cursor baseline).1 ≠ StepOutcome.crash →
        (runStep resolve fetch round6 cursor baseline).2.2 = cursor + 604800) ∧
    (∀ (cursor : ℤ) (baseline : Option Baseline),
        (runFrom resolve fetch round6 endBound cursor baseline).crashed = false →
        endBound < (runFrom resolve fetch round6 endBound cursor baseline).finalCursor) := by
  constructor
  · intro cursor baseline h
    rw [runStep_nextCursor resolve fetch round6 cursor baseline h]
    norm_num
  · intro cursor baseline h
    exact runFrom_finalCursor_gt resolve fetch round6 endBound cursor baseline h

/-- C4 witness: a resolver that never finds a block, cursor 0, end bound -1
(loop body never entered). -/
theorem step_advance_and_loop_termination_witness :
    (runStep resolveNone fetchNone id 0 none).1 ≠ StepOutcome.crash ∧
    (runStep resolveNone fetchNone id 0 none).2.2 = 0 + 604800 ∧
    (runFrom resolveNone fetchNone id (-1) 0 none).crashed = false ∧
    (-1 : ℤ) < (runFrom resolveNone fetchNone id (-1) 0 none).finalCursor := by
  have h1 : (runStep resolveNone fetchNone id 0 none).1 ≠ StepOutcome.crash := by
    rw [runStep_of_resolve_none resolveNone fetchNone id 0 none rfl]
    simp
  have h2 : (runFrom resolveNone fetchNone id (-1) 0 none).crashed = false := by
    rw [runFrom_of_gt resolveNone fetchNone id (-1) 0 none (by norm_num)]
  exact ⟨h1, (step_advance_and_loop_termination resolveNone fetchNone id (-1)).1 0 none h1, h2,
    (step_advance_and_loop_termination resolveNone fetchNone id (-1)).2 0 none h2⟩

/-- C5 counterexample: with start 0 and end bound 604800 — one step apart —
the loop (here with a resolver that always fails, so no step crashes) runs
its body twice, not once: the `while current_timestamp <= today_timestamp`
bound is inclusive, so both cursor 0 and cursor 604800 are sampled. -/
theorem one_week_run_iterations_ne_one :
    (runFrom resolveNone fetchNone id 604800 0 none).iterations = 2 ∧
    (runFrom resolveNone fetchNone id 604800 0 none).iterations ≠ 1 := by
  have hs : ∀ (c : ℤ) (b : Option Baseline),
      runStep resolveNone fetchNone id c b = (.skipped, b, c + 7 * 86400) :=
    fun c b => runStep_of_resolve_none resolveNone fetchNone id c b rfl
  have e1 := runFrom_skip resolveNone fetchNone id 604800 0 none none (0 + 7 * 86400)
    (by norm_num) (hs 0 none)
  have e2 := runFrom_skip resolveNone fetchNone id 604800 (0 + 7 * 86400) none none
    (0 + 7 * 86400 + 7 * 86400) (by norm_num) (hs (0 + 7 * 86400) none)
  have e3 := runFrom_of_gt resolveNone fetchNone id 604800 (0 + 7 * 86400 + 7 * 86400) none
    (by norm_num)
  constructor
  · rw [e1]
    show (runFrom resolveNone fetchNone id 604800 (0 + 7 * 86400) none).iterations + 1 = 2
    rw [e2]
    show (runFrom resolveNone fetchNone id 604800 (0 + 7 * 86400 + 7 * 86400) none).iterations
      + 1 + 1 = 2
    rw [e3]
  · rw [e1]
    show (runFrom resolveNone fetchNone id 604800 (0 + 7 * 86400) none).iterations + 1 ≠ 1
    rw [e2]
    show (runFrom resolveNone fetchNone id 604800 (0 + 7 * 86400 + 7 * 86400) none).iterations
      + 1 + 1 ≠ 1
    rw [e3]
    simp

/-- C5 amended: for a start timestamp and end bound exactly one step
(604800 seconds) apart, a run without an uncaught exception performs exactly
two loop iterations — one at the start cursor and one at the (inclusive) end
bound. -/
theorem one_week_apart_two_iterations (resolve : ℤ → Option BlockId)
    (fetch : BlockId → Option RawPoolSnapshot) (round6 : ℝ → ℝ) (start : ℤ)
    (baseline : Option Baseline)
    (hnc : (runFrom resolve fetch round6 (start + 604800) start baseline).crashed = false) :
    (runFrom resolve fetch round6 (start + 604800) start baseline).iterations = 2 := by
  obtain ⟨b, hit, hc⟩ := runFrom_iterations_succ resolve fetch round6 (start + 604800) start
    baseline (by omega) hnc
  rw [hit, runFrom_iterations_last resolve fetch round6 (start + 604800) (start + 7 * 86400) b
    (by omega) (by omega) hc]

/-- C5 amended witness: start 0, end bound 0 + 604800, failing resolver. -/
theorem one_week_apart_two_iterations_witness :
    (runFrom resolveNone fetchNone id ((0 : ℤ) + 604800) 0 none).crashed = false ∧
    (runFrom resolveNone fetchNone id ((0 : ℤ) + 604800) 0 none).iterations = 2 := by
  have hs : ∀ (c : ℤ) (b : Option Baseline),
      runStep resolveNone fetchNone id c b = (.skipped, b, c + 7 * 86400) :=
    fun c b => runStep_of_resolve_none resolveNone fetchNone id c b rfl
  have e1 := runFrom_skip resolveNone fetchNone id ((0 : ℤ) + 604800) 0 none none
    (0 + 7 * 86400) (by norm_num) (hs 0 none)
  have e2 := runFrom_skip resolveNone fetchNone id ((0 : ℤ) + 604800) (0 + 7 * 86400) none none
    (0 + 7 * 86400 + 7 * 86400) (by norm_num) (hs (0 + 7 * 86400) none)
  have e3 := runFrom_of_gt resolveNone fetchNone id ((0 : ℤ) + 604800)
    (0 + 7 * 86400 + 7 * 86400) none (by norm_num)
  have hnc : (runFrom resolveNone fetchNone id ((0 : ℤ) + 604800) 0 none).crashed = false := by
    rw [e1]
    show (runFrom resolveNone fetchNone id ((0 : ℤ) + 604800) (0 + 7 * 86400) none).crashed = false
    rw [e2]
    show (runFrom resolveNone fetchNone id ((0 : ℤ) + 604800)
      (0 + 7 * 86400 + 7 * 86400) none).crashed = false
    rw [e3]
  exact ⟨hnc, one_week_apart_two_iterations resolveNone fetchNone id 0 none hnc⟩

/-- Apply the output rounding to the numeric fields of a row (exactly the
fields `round(..., 6)` touches in `csv_row`). -/
def roundRow (round6 : ℝ → ℝ) (row : OutputRow) : OutputRow :=
  ⟨row.utcTimestamp, row.blockNumber, round6 row.totalInvariant, round6 row.totalSupply,
   round6 row.lastPrice, row.totalLPReturnPercent.map round6, row.spotReturnPercent.map round6⟩

/-- Apply the output rounding to an emitted row, if any. -/
def StepOutcome.mapRound (round6 : ℝ → ℝ) : StepOutcome → StepOutcome
  | .crash => .crash
  | .skipped => .skipped
  | .emitted row => .emitted (roundRow round6 row)

/-- One step with rounding is one step without rounding, with the rounding
applied only to the emitted row: baseline and cursor are untouched by it. -/
theorem runStep_round (resolve : ℤ → Option BlockId)
    (fetch : BlockId → Option RawPoolSnapshot) (round6 : ℝ → ℝ) (cursor : ℤ)
    (baseline : Option Baseline) :
    runStep resolve fetch round6 cursor baseline =
      (StepOutcome.mapRound round6 (runStep resolve fetch id cursor baseline).1,
       (runStep resolve fetch id cursor baseline).2) := by
  rcases hres : resolve cursor with _ | blk
  · rw [runStep_of_resolve_none resolve fetch round6 cursor baseline hres,
      runStep_of_resolve_none resolve fetch id cursor baseline hres]
    rfl
  · rcases ht : blk.truthy with _ | _
    · rw [runStep_of_falsy resolve fetch round6 cursor baseline blk hres ht,
        runStep_of_falsy resolve fetch id cursor baseline blk hres ht]
      rfl
    · rcases hf : fetch blk with _ | pool
      · rw [runStep_of_fetch_none resolve fetch round6 cursor baseline blk hres ht hf,
          runStep_of_fetch_none resolve fetch id cursor baseline blk hres ht hf]
        rfl
      · rcases h1 : normalize_value pool.lpInvariant 12 with _ | lpInv
        · rw [runStep_crash_of_norm_none resolve fetch round6 cursor baseline blk pool
              hres ht hf (Or.inl h1),
            runStep_crash_of_norm_none resolve fetch id cursor baseline blk pool
              hres ht hf (Or.inl h1)]
          rfl
        · rcases h2 : normalize_value pool.lpBorrowedInvariant 12 with _ | lpBor
          · rw [runStep_crash_of_norm_none resolve fetch round6 cursor baseline blk pool
                hres ht hf (Or.inr (Or.inl h2)),
              runStep_crash_of_norm_none resolve fetch id cursor baseline blk pool
                hres ht hf (Or.inr (Or.inl h2))]
            rfl
          · rcases h3 : normalize_value pool.lastPrice 6 with _ | lastP
            · rw [runStep_crash_of_norm_none resolve fetch round6 cursor baseline blk pool
                  hres ht hf (Or.inr (Or.inr (Or.inl h3))),
                runStep_crash_of_norm_none resolve fetch id cursor baseline blk pool
                  hres ht hf (Or.inr (Or.inr (Or.inl h3)))]
              rfl
            · rcases h4 : normalize_value pool.totalSupply 12 with _ | totSup
              · rw [runStep_crash_of_norm_none resolve fetch round6 cursor baseline blk pool
                    hres ht hf (Or.inr (Or.inr (Or.inr h4))),
                  runStep_crash_of_norm_none resolve fetch id cursor baseline blk pool
                    hres ht hf (Or.inr (Or.inr (Or.inr h4)))]
                rfl
              · rcases baseline with _ | b
                · by_cases hcr : metricsCrash ⟨lpInv + lpBor, totSup, lastP⟩ totSup lastP
                  · rw [runStep_crash_of_metrics_none resolve fetch round6 cursor blk pool
                        lpInv lpBor lastP totSup hres ht hf h1 h2 h3 h4 hcr,
                      runStep_crash_of_metrics_none resolve fetch id cursor blk pool
                        lpInv lpBor lastP totSup hres ht hf h1 h2 h3 h4 hcr]
                    rfl
                  · rw [runStep_success_none resolve fetch round6 cursor blk pool
                        lpInv lpBor lastP totSup hres ht hf h1 h2 h3 h4 hcr,
                      runStep_success_none resolve fetch id cursor blk pool
                        lpInv lpBor lastP totSup hres ht hf h1 h2 h3 h4 hcr]
                    simp [StepOutcome.mapRound, roundRow]
                · by_cases hcr : metricsCrash b totSup lastP
                  · rw [runStep_crash_of_metrics_some resolve fetch round6 cursor b blk pool
                        lpInv lpBor lastP totSup hres ht hf h1 h2 h3 h4 hcr,
                      runStep_crash_of_metrics_some resolve fetch id cursor b blk pool
                        lpInv lpBor lastP totSup hres ht hf h1 h2 h3 h4 hcr]
                    rfl
                  · rw [runStep_success_some resolve fetch round6 cursor b blk pool
                        lpInv lpBor lastP totSup hres ht hf h1 h2 h3 h4 hcr,
                      runStep_success_some resolve fetch id cursor b blk pool
                        lpInv lpBor lastP totSup hres ht hf h1 h2 h3 h4 hcr]
                    simp [StepOutcome.mapRound, roundRow]

/-- The whole run with rounding is the run without rounding with the
rounding mapped over the emitted rows; baseline evolution, cursor, iteration
count and crash status are identical. -/
theorem runFrom_round_aux (resolve : ℤ → Option BlockId)
    (fetch : BlockId → Option RawPoolSnapshot) (round6 : ℝ → ℝ) (endBound cursor : ℤ)
    (baseline : Option Baseline) :
    runFrom resolve fetch round6 endBound cursor baseline =
      ⟨((runFrom resolve fetch id endBound cursor baseline).rows).map (roundRow round6),
       (runFrom resolve fetch id endBound cursor baseline).baseline,
       (runFrom resolve fetch id endBound cursor baseline).finalCursor,
       (runFrom resolve fetch id endBound cursor baseline).iterations,
       (runFrom resolve fetch id endBound cursor baseline).crashed⟩ := by
  by_cases hle : cursor ≤ endBound
  · rcases runStep_master resolve fetch id cursor baseline with ⟨bc, hc, _⟩ | hs | ⟨row, b, he, _⟩
    · have hc' : runStep resolve fetch round6 cursor baseline = (.crash, bc, cursor) := by
        rw [runStep_round resolve fetch round6 cursor baseline, hc]
        rfl
      rw [runFrom_crash resolve fetch round6 endBound cursor baseline bc cursor hle hc',
        runFrom_crash resolve fetch id endBound cursor baseline bc cursor hle hc]
      rfl
    · have hs' : runStep resolve fetch round6 cursor baseline =
          (.skipped, baseline, cursor + 7 * 86400) := by
        rw [runStep_round resolve fetch round6 cursor baseline, hs]
        rfl
      rw [runFrom_skip resolve fetch round6 endBound cursor baseline baseline
          (cursor + 7 * 86400) hle hs',
        runFrom_skip resolve fetch id endBound cursor baseline baseline
          (cursor + 7 * 86400) hle hs,
        runFrom_round_aux resolve fetch round6 endBound (cursor + 7 * 86400) baseline]
    · have he' : runStep resolve fetch round6 cursor baseline =
          (.emitted (roundRow round6 row), some b, cursor + 7 * 86400) := by
        rw [runStep_round resolve fetch round6 cursor baseline, he]
        rfl
      rw [runFrom_emit resolve fetch round6 endBound cursor baseline (roundRow round6 row)
          (some b) (cursor + 7 * 86400) hle he',
        runFrom_emit resolve fetch id endBound cursor baseline row (some b)
          (cursor + 7 * 86400) hle he,
        runFrom_round_aux resolve fetch round6 endBound (cursor + 7 * 86400) (some b)]
      simp
  · rw [runFrom_of_gt resolve fetch round6 endBound cursor baseline (by omega),
      runFrom_of_gt resolve fetch id endBound cursor baseline (by omega)]
    rfl
termination_by (endBound + 1 - cursor).toNat
decreasing_by all_goals omega

/-- C10: the 6-decimal rounding is applied only when assembling emitted
rows. The stored baseline (and the whole state evolution) of a run with
output rounding coincides with that of the unrounded run, and every emitted
row is the rounding of the row computed from unrounded values — so later
rows' metrics are independent of the rounding applied to earlier rows. -/
theorem rounding_only_at_assembly (resolve : ℤ → Option BlockId)
    (fetch : BlockId → Option RawPoolSnapshot) (round6 : ℝ → ℝ) (endBound cursor : ℤ)
    (baseline : Option Baseline) :
    (runFrom resolve fetch round6 endBound cursor baseline).baseline =
      (runFrom resolve fetch id endBound cursor baseline).baseline ∧
    (runFrom resolve fetch round6 endBound cursor baseline).rows =
      ((runFrom resolve fetch id endBound cursor baseline).rows).map (roundRow round6) ∧
    (runStep resolve fetch round6 cursor baseline).2 =
      (runStep resolve fetch id cursor baseline).2 := by
  refine ⟨?_, ?_, ?_⟩
  · rw [runFrom_round_aux resolve fetch round6 endBound cursor baseline]
  · rw [runFrom_round_aux resolve fetch round6 endBound cursor baseline]
  · rw [runStep_round resolve fetch round6 cursor baseline]
